import Mathlib

/-!
Shallow embedding of the windowed rendering demo in `src/main.rs`.

The program builds a GPU context (surface, adapter, device, queue,
swapchain) for one window, seeds a single quad into an interface render
pass, and drives update/render/input from the window system's event loop.

Modelling conventions:
* opaque GPU handles (surface, adapter, device, shader modules, frames)
  are token structures carrying a numeric id;
* `f32` values appearing in the program are embedded as `ℚ` — every
  literal in the source (0, 1, 10, 100, ...) is exactly representable;
* `u32` sizes and indices are embedded as `Nat` (the program performs no
  wrapping arithmetic on them);
* externally-supplied results (the adapter/device handed back by the
  driver, the swapchain image returned by `get_next_texture`) enter the
  model as explicit parameters; `get_next_texture` is an
  `Option Frame`, with `none` standing for the acquisition timeout;
* Rust panics (`unwrap` / `expect`) are embedded as `Except.error`.
-/

/-- Mirrors `winit::dpi::PhysicalSize<u32>`. -/
structure PhysicalSize where
  width : Nat
  height : Nat
deriving DecidableEq, Repr

/-- Mirrors `wgpu::TextureUsage` restricted to the one flag the source uses. -/
inductive TextureUsage where
  | OUTPUT_ATTACHMENT
deriving DecidableEq, Repr

/-- Mirrors `wgpu::TextureFormat` restricted to the variant the source uses. -/
inductive TextureFormat where
  | Bgra8UnormSrgb
deriving DecidableEq, Repr

/-- Mirrors `wgpu::PresentMode` restricted to the variant the source uses. -/
inductive PresentMode where
  | Fifo
deriving DecidableEq, Repr

/-- Mirrors `wgpu::SwapChainDescriptor`. -/
structure SwapChainDescriptor where
  usage : TextureUsage
  format : TextureFormat
  width : Nat
  height : Nat
  present_mode : PresentMode
deriving DecidableEq, Repr

/-- Opaque handle for `wgpu::Surface`. -/
structure Surface where
  id : Nat
deriving DecidableEq, Repr

/-- Opaque handle for `wgpu::Adapter`. -/
structure Adapter where
  id : Nat
deriving DecidableEq, Repr

/-- Opaque handle for `wgpu::Device`. -/
structure Device where
  id : Nat
deriving DecidableEq, Repr

/-- Mirrors `wgpu::SwapChain`: the model records which device and surface
it was created against and the descriptor it was created from. -/
structure SwapChain where
  device : Device
  surface : Surface
  desc : SwapChainDescriptor
deriving DecidableEq, Repr

/-- Mirrors `device.create_swap_chain(&surface, &sc_desc)`. -/
def Device.create_swap_chain (d : Device) (s : Surface) (desc : SwapChainDescriptor) : SwapChain :=
  ⟨d, s, desc⟩

/-- Mirrors the buffer-usage flag combinations occurring in the source:
`VERTEX`, `INDEX`, and `UNIFORM | COPY_DST`. -/
inductive BufferUsage where
  | VERTEX
  | INDEX
  | UNIFORM_COPY_DST
deriving DecidableEq, Repr

/-- Mirrors `wgpu::Buffer` as created by `create_buffer_with_data`: the model
keeps the byte length of the uploaded data and the usage flags. -/
structure Buffer where
  len_bytes : Nat
  usage : BufferUsage
deriving DecidableEq, Repr

/-- Mirrors `wgpu::LoadOp`. -/
inductive LoadOp where
  | Clear
  | Load
deriving DecidableEq, Repr

/-- Mirrors `wgpu::StoreOp`. -/
inductive StoreOp where
  | Clear
  | Store
deriving DecidableEq, Repr

/-- Mirrors `wgpu::Color`. -/
structure Color where
  r : ℚ
  g : ℚ
  b : ℚ
  a : ℚ
deriving DecidableEq, Repr

/-- Mirrors a Rust `Range<u32>` such as `0..self.indices.len()`. -/
structure RangeU32 where
  start : Nat
  stop : Nat
deriving DecidableEq, Repr

/-- Commands recorded into a render pass by `InterfacePass::render`. -/
inductive RenderCmd where
  | set_pipeline
  | set_bind_group (index : Nat)
  | set_vertex_buffer (slot : Nat) (buffer : Buffer)
  | set_index_buffer (buffer : Buffer)
  | draw_indexed (indices : RangeU32) (base_vertex : Int) (instances : RangeU32)
deriving DecidableEq, Repr

/-- Recognises the indexed-draw command. -/
def RenderCmd.isDraw : RenderCmd → Bool
  | .draw_indexed _ _ _ => true
  | _ => false

/-- One render pass as recorded by `encoder.begin_render_pass`: the color
attachment's load/store ops and clear color, and the commands recorded
between `begin_render_pass` and the end of the pass scope. -/
structure RenderPassRecord where
  load_op : LoadOp
  store_op : StoreOp
  clear_color : Color
  cmds : List RenderCmd
deriving DecidableEq, Repr

/-- Mirrors `wgpu::CommandBuffer` as produced by `encoder.finish()`. -/
structure CommandBuffer where
  passes : List RenderPassRecord
deriving DecidableEq, Repr

/-- Mirrors `wgpu::Queue`; `submissions` is the history of command buffers
submitted via `queue.submit`. -/
structure Queue where
  id : Nat
  submissions : List CommandBuffer
deriving DecidableEq, Repr

/-- Mirrors `queue.submit(&[...])`. -/
def Queue.submit (q : Queue) (bufs : List CommandBuffer) : Queue :=
  { q with submissions := q.submissions ++ bufs }

/-- Mirrors the `Context` struct of `src/main.rs`. -/
structure Context where
  surface : Surface
  adapter : Adapter
  device : Device
  queue : Queue
  sc_desc : SwapChainDescriptor
  swap_chain : SwapChain
  size : PhysicalSize
deriving DecidableEq, Repr

/-- Mirrors the window handle the window system supplies: its id and
current inner size. -/
structure Window where
  id : Nat
  inner_size : PhysicalSize
deriving DecidableEq, Repr

/-- Mirrors `wgpu::Surface::create(window)`. -/
def Surface.create (window : Window) : Surface :=
  ⟨window.id⟩

/-- Mirrors `Context::new`. The adapter, device and queue are returned by
the driver in the source (`Adapter::request` / `request_device`), so they
enter the model as parameters; the descriptor and swapchain construction
follow the source body. -/
def Context.new (window : Window) (adapter : Adapter) (device : Device) (queue_id : Nat) :
    Context :=
  let size := window.inner_size
  let surface := Surface.create window
  let sc_desc : SwapChainDescriptor :=
    { usage := TextureUsage.OUTPUT_ATTACHMENT
      format := TextureFormat.Bgra8UnormSrgb
      width := size.width
      height := size.height
      present_mode := PresentMode.Fifo }
  let swap_chain := device.create_swap_chain surface sc_desc
  { surface := surface
    adapter := adapter
    device := device
    queue := ⟨queue_id, []⟩
    sc_desc := sc_desc
    swap_chain := swap_chain
    size := size }

/-- Mirrors `Context::resize`. -/
def Context.resize (self : Context) (new_size : PhysicalSize) : Context :=
  let sc_desc : SwapChainDescriptor :=
    { self.sc_desc with width := new_size.width, height := new_size.height }
  { self with
    size := new_size
    sc_desc := sc_desc
    swap_chain := self.device.create_swap_chain self.surface sc_desc }

/-- Byte size of an `f32`. -/
def f32_size : Nat := 4

/-- Byte size of a `u32`. -/
def u32_size : Nat := 4

/-- Mirrors the `InterfaceVertex` struct: 2D position, RGBA color, UV, and
a `u32` index tag. -/
structure InterfaceVertex where
  pos : ℚ × ℚ
  color : ℚ × ℚ × ℚ × ℚ
  uv : ℚ × ℚ
  index : Nat
deriving DecidableEq, Repr

/-- Byte sizes of the fields of `InterfaceVertex` in declaration order:
`[f32; 2]`, `[f32; 4]`, `[f32; 2]`, `u32`. -/
def InterfaceVertex.fieldSizes : List Nat :=
  [2 * f32_size, 4 * f32_size, 2 * f32_size, u32_size]

/-- Byte offsets of a `repr(C)` record's fields: the running sums of the
field sizes. Every field of `InterfaceVertex` has alignment 4 and every
running sum is a multiple of 4, so no padding is inserted. -/
def reprCOffsets (sizes : List Nat) : List Nat :=
  (sizes.foldl (fun acc sz => (acc.1 ++ [acc.2], acc.2 + sz)) ([], 0)).1

/-- Mirrors `std::mem::size_of::<InterfaceVertex>()`: the `repr(C)` layout
has no padding (all fields are 4-aligned and 4-multiple-sized), so the
size is the sum of the field sizes. -/
def InterfaceVertex.size_of : Nat := InterfaceVertex.fieldSizes.sum

/-- Mirrors `wgpu::VertexFormat` restricted to the variants the source uses. -/
inductive VertexFormat where
  | Float2
  | Float4
  | Uint
deriving DecidableEq, Repr

/-- Byte size of each vertex-attribute format. -/
def VertexFormat.byteSize : VertexFormat → Nat
  | .Float2 => 2 * f32_size
  | .Float4 => 4 * f32_size
  | .Uint => u32_size

/-- Mirrors `wgpu::InputStepMode` restricted to the variant the source uses. -/
inductive InputStepMode where
  | Vertex
deriving DecidableEq, Repr

/-- Mirrors `wgpu::VertexAttributeDescriptor`. -/
structure VertexAttributeDescriptor where
  offset : Nat
  shader_location : Nat
  format : VertexFormat
deriving DecidableEq, Repr

/-- Mirrors `wgpu::VertexBufferDescriptor`. -/
structure VertexBufferDescriptor where
  stride : Nat
  step_mode : InputStepMode
  attributes : List VertexAttributeDescriptor
deriving DecidableEq, Repr

/-- Mirrors `InterfaceVertex::desc()` (the `Vertex` trait impl). -/
def InterfaceVertex.desc : VertexBufferDescriptor :=
  { stride := InterfaceVertex.size_of
    step_mode := InputStepMode.Vertex
    attributes :=
      [ { offset := 0, shader_location := 0, format := VertexFormat.Float2 }
      , { offset := 8, shader_location := 1, format := VertexFormat.Float4 }
      , { offset := 24, shader_location := 2, format := VertexFormat.Float2 }
      , { offset := 32, shader_location := 3, format := VertexFormat.Uint } ] }

/-- A 4×4 matrix of `f32` values (embedded as `ℚ`), row-major field names
`m<row><col>`. Mirrors `na::Matrix4<f32>`. -/
structure Matrix4 where
  m00 : ℚ
  m01 : ℚ
  m02 : ℚ
  m03 : ℚ
  m10 : ℚ
  m11 : ℚ
  m12 : ℚ
  m13 : ℚ
  m20 : ℚ
  m21 : ℚ
  m22 : ℚ
  m23 : ℚ
  m30 : ℚ
  m31 : ℚ
  m32 : ℚ
  m33 : ℚ
deriving DecidableEq, Repr

/-- Mirrors `na::Matrix4::identity()`. -/
def Matrix4.identity : Matrix4 :=
  { m00 := 1, m01 := 0, m02 := 0, m03 := 0
    m10 := 0, m11 := 1, m12 := 0, m13 := 0
    m20 := 0, m21 := 0, m22 := 1, m23 := 0
    m30 := 0, m31 := 0, m32 := 0, m33 := 1 }

/-- Mirrors `na::Orthographic3<f32>`: nalgebra stores the computed
homogeneous projection matrix. -/
structure Orthographic3 where
  matrix : Matrix4
deriving DecidableEq, Repr

/-- Mirrors `na::Orthographic3::new(left, right, bottom, top, znear, zfar)`:
the OpenGL-convention orthographic projection matrix. -/
def Orthographic3.new (left right bottom top znear zfar : ℚ) : Orthographic3 :=
  ⟨{ Matrix4.identity with
     m00 := 2 / (right - left), m03 := -(right + left) / (right - left)
     m11 := 2 / (top - bottom), m13 := -(top + bottom) / (top - bottom)
     m22 := -2 / (zfar - znear), m23 := -(zfar + znear) / (zfar - znear) }⟩

/-- Mirrors `Orthographic3::as_matrix`. -/
def Orthographic3.as_matrix (self : Orthographic3) : Matrix4 :=
  self.matrix

/-- Mirrors the `VertexUniforms` struct. -/
structure VertexUniforms where
  camera : Matrix4
  transform : Matrix4
deriving DecidableEq, Repr

/-- Mirrors `std::mem::size_of::<VertexUniforms>()`: two 4×4 `f32` matrices. -/
def VertexUniforms.size_of : Nat := 2 * 16 * f32_size

/-- Opaque handle for a `wgpu::ShaderModule` built from embedded SPIR-V. -/
structure ShaderModule where
  id : Nat
deriving DecidableEq, Repr

/-- Mirrors the bind group built in `InterfacePass::new`: binding 0 exposes
the uniform buffer over the byte range `0..size_of::<VertexUniforms>()`.
The model also records the uniform data uploaded into that buffer. -/
structure BindGroup where
  binding : Nat
  buffer : Buffer
  buffer_data : VertexUniforms
  range_stop : Nat
deriving DecidableEq, Repr

/-- Mirrors `wgpu::FrontFace` restricted to the variant the source uses. -/
inductive FrontFace where
  | Ccw
deriving DecidableEq, Repr

/-- Mirrors `wgpu::CullMode` restricted to the variant the source uses. -/
inductive CullMode where
  | Back
deriving DecidableEq, Repr

/-- Mirrors `wgpu::PrimitiveTopology` restricted to the variant the source
uses. -/
inductive PrimitiveTopology where
  | TriangleList
deriving DecidableEq, Repr

/-- Mirrors `wgpu::IndexFormat` restricted to the variant the source uses. -/
inductive IndexFormat where
  | Uint32
deriving DecidableEq, Repr

/-- Mirrors the parts of the `wgpu::RenderPipelineDescriptor` built in
`InterfacePass::new` that the model keeps. -/
structure RenderPipeline where
  vs_module : ShaderModule
  fs_module : ShaderModule
  front_face : FrontFace
  cull_mode : CullMode
  color_format : TextureFormat
  primitive_topology : PrimitiveTopology
  index_format : IndexFormat
  vertex_buffers : List VertexBufferDescriptor
  sample_count : Nat
deriving DecidableEq, Repr

/-- Mirrors the `InterfacePass` struct. Indices are `u32` in the source,
embedded as `Nat`. -/
structure InterfacePass where
  pipeline : RenderPipeline
  uniforms_bind_group : BindGroup
  camera : Orthographic3
  vertices : List InterfaceVertex
  indices : List Nat
deriving DecidableEq, Repr

/-- Mirrors `InterfacePass::new`. The two shader modules come from embedded
SPIR-V bytecode, so they are opaque tokens here; the camera, uniform
buffer, bind group and pipeline follow the source body. -/
def InterfacePass.new (ctx : Context) : InterfacePass :=
  let vs_module : ShaderModule := ⟨0⟩
  let fs_module : ShaderModule := ⟨1⟩
  let camera := Orthographic3.new 0 1 0 1 10 100
  let uniforms : VertexUniforms :=
    { camera := camera.as_matrix, transform := Matrix4.identity }
  let uniforms_buffer : Buffer :=
    { len_bytes := VertexUniforms.size_of, usage := BufferUsage.UNIFORM_COPY_DST }
  let uniforms_bind_group : BindGroup :=
    { binding := 0
      buffer := uniforms_buffer
      buffer_data := uniforms
      range_stop := VertexUniforms.size_of }
  let pipeline : RenderPipeline :=
    { vs_module := vs_module
      fs_module := fs_module
      front_face := FrontFace.Ccw
      cull_mode := CullMode.Back
      color_format := ctx.sc_desc.format
      primitive_topology := PrimitiveTopology.TriangleList
      index_format := IndexFormat.Uint32
      vertex_buffers := [InterfaceVertex.desc]
      sample_count := 1 }
  { pipeline := pipeline
    uniforms_bind_group := uniforms_bind_group
    camera := camera
    vertices := []
    indices := [] }

/-- Mirrors `InterfacePass::update` (a no-op). -/
def InterfacePass.update (self : InterfacePass) : InterfacePass :=
  self

/-- Opaque handle for the swapchain image returned by `get_next_texture`. -/
structure Frame where
  view : Nat
deriving DecidableEq, Repr

/-- Mirrors `InterfacePass::render`. The swapchain image acquisition is
external, so its outcome is the parameter `acquired`; `none` models the
acquisition timeout, on which the source's `.expect` aborts the process
(embedded as `Except.error`). On success the updated context (whose queue
has received the finished command buffer) is returned. -/
def InterfacePass.render (self : InterfacePass) (ctx : Context) (acquired : Option Frame) :
    Except String Context :=
  let vertex_buffer : Buffer :=
    { len_bytes := self.vertices.length * InterfaceVertex.size_of
      usage := BufferUsage.VERTEX }
  let index_buffer : Buffer :=
    { len_bytes := self.indices.length * u32_size
      usage := BufferUsage.INDEX }
  match acquired with
  | none => Except.error "Timeout getting texture"
  | some _frame =>
    let pass : RenderPassRecord :=
      { load_op := LoadOp.Load
        store_op := StoreOp.Store
        clear_color := { r := 0, g := 0, b := 0, a := 0 }
        cmds :=
          [ RenderCmd.set_pipeline
          , RenderCmd.set_bind_group 0
          , RenderCmd.set_vertex_buffer 0 vertex_buffer
          , RenderCmd.set_index_buffer index_buffer
          , RenderCmd.draw_indexed ⟨0, self.indices.length⟩ 0 ⟨0, 1⟩ ] }
    let finished : CommandBuffer := ⟨[pass]⟩
    Except.ok { ctx with queue := ctx.queue.submit [finished] }

/-- Mirrors `winit::event::ElementState`. -/
inductive ElementState where
  | Pressed
  | Released
deriving DecidableEq, Repr

/-- Mirrors `winit::event::VirtualKeyCode`: `Escape` is the only key the
source distinguishes; `Other n` stands for all remaining keycodes. -/
inductive VirtualKeyCode where
  | Escape
  | Other (code : Nat)
deriving DecidableEq, Repr

/-- Mirrors `winit::event::KeyboardInput` (the fields the source reads,
plus the scancode matched by `..`). -/
structure KeyboardInput where
  scancode : Nat
  state : ElementState
  virtual_keycode : Option VirtualKeyCode
deriving DecidableEq, Repr

/-- Mirrors `winit::event::WindowEvent` restricted to the variants the
source's `match` distinguishes; `Other n` stands for the `_` arm. -/
inductive WindowEvent where
  | CloseRequested
  | KeyboardInput (input : KeyboardInput)
  | Resized (physical_size : PhysicalSize)
  | ScaleFactorChanged (new_inner_size : PhysicalSize)
  | Other (n : Nat)
deriving DecidableEq, Repr

/-- Mirrors `winit::event::Event` restricted to the variants the source's
`match` distinguishes; `Other` stands for the `_` arm. -/
inductive Event where
  | WindowEvent (window_id : Nat) (event : WindowEvent)
  | RedrawRequested (id : Nat)
  | MainEventsCleared
  | Other
deriving DecidableEq, Repr

/-- Mirrors `winit::event_loop::ControlFlow` (the variants relevant to the
source: the loop sets `Poll` or `Exit`; `Wait` exists in the library). -/
inductive ControlFlow where
  | Poll
  | Wait
  | Exit
deriving DecidableEq, Repr

/-- Mirrors the `Application` struct. -/
structure Application where
  interface_pass : InterfacePass
deriving DecidableEq, Repr

/-- Mirrors `Application::new`: builds the interface pass and overwrites
its vertex and index lists with the hardcoded unit quad. -/
def Application.new (ctx : Context) : Application :=
  let interface_pass := InterfacePass.new ctx
  let interface_pass :=
    { interface_pass with
      vertices :=
        [ { pos := (0, 0), color := (1, 1, 1, 1), uv := (0, 0), index := 0 }
        , { pos := (1, 0), color := (1, 1, 1, 1), uv := (0, 0), index := 0 }
        , { pos := (1, 1), color := (1, 1, 1, 1), uv := (0, 0), index := 0 }
        , { pos := (0, 1), color := (1, 1, 1, 1), uv := (0, 0), index := 0 } ] }
  let interface_pass := { interface_pass with indices := [0, 1, 3, 1, 2, 3] }
  { interface_pass := interface_pass }

/-- Mirrors `Application::update`: forwards to `InterfacePass::update`. -/
def Application.update (self : Application) (_ctx : Context) : Application :=
  { self with interface_pass := self.interface_pass.update }

/-- Mirrors `Application::render`: forwards to `InterfacePass::render`.
The receiver is `&self` in the source, so only the context is returned. -/
def Application.render (self : Application) (ctx : Context) (acquired : Option Frame) :
    Except String Context :=
  self.interface_pass.render ctx acquired

/-- Mirrors `Application::input`: takes `&mut self` in the source, so the
model returns the (unchanged) application next to the `bool` result. -/
def Application.input (self : Application) (_event : WindowEvent) : Bool × Application :=
  (true, self)

/-- The state the event-loop closure in `main` owns: the moved-in context
and application. -/
structure LoopState where
  ctx : Context
  app : Application
deriving DecidableEq, Repr

/-- One invocation of the event-loop closure in `main`. `window_id` is the
id of the window built at startup, `cf` the control-flow slot's value on
entry (the closure overwrites it with `Poll` before matching), and
`acquired` the swapchain-acquisition outcome consumed if the event leads
to a render. A Rust panic inside the closure is `Except.error`. -/
def loopStep (window_id : Nat) (s : LoopState) (cf : ControlFlow) (event : Event)
    (acquired : Option Frame) : Except String (LoopState × ControlFlow) :=
  let _ := cf
  let cf := ControlFlow.Poll
  match event with
  | Event.WindowEvent wid e =>
    if wid = window_id then
      match s.app.input e with
      | (consumed, app) =>
        if consumed then
          match e with
          | WindowEvent.CloseRequested =>
            Except.ok ({ s with app := app }, ControlFlow.Exit)
          | WindowEvent.KeyboardInput ki =>
            match ki.state, ki.virtual_keycode with
            | ElementState.Pressed, some VirtualKeyCode.Escape =>
              Except.ok ({ s with app := app }, ControlFlow.Exit)
            | _, _ => Except.ok ({ s with app := app }, cf)
          | WindowEvent.Resized physical_size =>
            Except.ok ({ ctx := s.ctx.resize physical_size, app := app }, cf)
          | WindowEvent.ScaleFactorChanged new_inner_size =>
            Except.ok ({ ctx := s.ctx.resize new_inner_size, app := app }, cf)
          | WindowEvent.Other _ => Except.ok ({ s with app := app }, cf)
        else
          Except.ok ({ s with app := app }, cf)
    else
      Except.ok (s, cf)
  | Event.RedrawRequested _ =>
    let app := s.app.update s.ctx
    match app.render s.ctx acquired with
    | Except.ok ctx => Except.ok ({ ctx := ctx, app := app }, cf)
    | Except.error msg => Except.error msg
  | Event.MainEventsCleared => Except.ok (s, cf)
  | Event.Other => Except.ok (s, cf)

/-- A concrete window for instantiating the model. -/
def sampleWindow : Window := ⟨0, ⟨800, 600⟩⟩

/-- A concrete context built from `sampleWindow` with token handles. -/
def sampleContext : Context := Context.new sampleWindow ⟨0⟩ ⟨0⟩ 0

/-- The loop state right after startup: context plus freshly seeded
application. -/
def sampleState : LoopState :=
  { ctx := sampleContext, app := Application.new sampleContext }

/-- Helper: whether a fallible computation succeeded. -/
def exceptIsOk {ε α : Type _} : Except ε α → Bool
  | Except.ok _ => true
  | Except.error _ => false

/-- The geometry invariant of the render pass: the index list length is a
multiple of 3 and every index refers to an existing vertex. -/
def geomInvariant (p : InterfacePass) : Prop :=
  p.indices.length % 3 = 0 ∧ ∀ i ∈ p.indices, i < p.vertices.length

/-- Helper: every successful iteration of the event-loop closure leaves the
application untouched, produces `Exit` or `Poll`, and produces `Exit`
exactly on a close request or a pressed-Escape key event for the loop's
window. -/
theorem loopStep_ok_spec (window_id : Nat) (s : LoopState) (cf : ControlFlow) (e : Event)
    (acq : Option Frame) (s' : LoopState) (cf' : ControlFlow)
    (h : loopStep window_id s cf e acq = Except.ok (s', cf')) :
    s'.app = s.app ∧
    (cf' = ControlFlow.Exit ∨ cf' = ControlFlow.Poll) ∧
    (cf' = ControlFlow.Exit ↔
      (e = Event.WindowEvent window_id WindowEvent.CloseRequested ∨
       ∃ sc, e = Event.WindowEvent window_id
         (WindowEvent.KeyboardInput ⟨sc, ElementState.Pressed, some VirtualKeyCode.Escape⟩))) := by
  cases e with
  | WindowEvent wid we =>
    by_cases hw : wid = window_id
    · subst hw
      cases we with
      | CloseRequested =>
        simp only [loopStep, Application.input, if_true, reduceIte] at h
        obtain ⟨h1, h2⟩ := Prod.mk.injEq .. ▸ Except.ok.inj h
        subst h1; subst h2
        simp
      | KeyboardInput ki =>
        obtain ⟨sc, st, kc⟩ := ki
        cases st <;> rcases kc with _ | k <;> try cases k
        all_goals
          simp only [loopStep, Application.input, reduceIte] at h
        all_goals
          obtain ⟨h1, h2⟩ := Prod.mk.injEq .. ▸ Except.ok.inj h
        all_goals subst h1; subst h2
        all_goals simp
      | Resized ps =>
        simp only [loopStep, Application.input, reduceIte] at h
        obtain ⟨h1, h2⟩ := Prod.mk.injEq .. ▸ Except.ok.inj h
        subst h1; subst h2
        simp
      | ScaleFactorChanged ps =>
        simp only [loopStep, Application.input, reduceIte] at h
        obtain ⟨h1, h2⟩ := Prod.mk.injEq .. ▸ Except.ok.inj h
        subst h1; subst h2
        simp
      | Other n =>
        simp only [loopStep, Application.input, reduceIte] at h
        obtain ⟨h1, h2⟩ := Prod.mk.injEq .. ▸ Except.ok.inj h
        subst h1; subst h2
        simp
    · simp only [loopStep, Application.input, hw, reduceIte] at h
      obtain ⟨h1, h2⟩ := Prod.mk.injEq .. ▸ Except.ok.inj h
      subst h1; subst h2
      simp [hw]
  | RedrawRequested i =>
    simp only [loopStep, Application.update, Application.render, InterfacePass.update] at h
    cases hr : InterfacePass.render s.app.interface_pass s.ctx acq with
    | ok c => rw [hr] at h
              obtain ⟨h1, h2⟩ := Prod.mk.injEq .. ▸ Except.ok.inj h
              subst h1; subst h2
              simp
    | error m => rw [hr] at h; exact absurd h (by simp)
  | MainEventsCleared =>
    simp only [loopStep] at h
    obtain ⟨h1, h2⟩ := Prod.mk.injEq .. ▸ Except.ok.inj h
    subst h1; subst h2
    simp
  | Other =>
    simp only [loopStep] at h
    obtain ⟨h1, h2⟩ := Prod.mk.injEq .. ▸ Except.ok.inj h
    subst h1; subst h2
    simp


/-- C1: for every requested size `S`, `Context.resize S` sets the stored
size and the swapchain descriptor's width and height to `S`'s width and
height, rebuilds only the swapchain (against the unchanged surface and
device, from the updated descriptor), and leaves the surface, adapter,
device, and queue fields unchanged (the remaining descriptor fields too). -/
theorem resize_updates_only_swapchain (c : Context) (S : PhysicalSize) :
    (c.resize S).size = S ∧
    (c.resize S).sc_desc.width = S.width ∧
    (c.resize S).sc_desc.height = S.height ∧
    (c.resize S).sc_desc.usage = c.sc_desc.usage ∧
    (c.resize S).sc_desc.format = c.sc_desc.format ∧
    (c.resize S).sc_desc.present_mode = c.sc_desc.present_mode ∧
    (c.resize S).surface = c.surface ∧
    (c.resize S).adapter = c.adapter ∧
    (c.resize S).device = c.device ∧
    (c.resize S).queue = c.queue ∧
    (c.resize S).swap_chain =
      c.device.create_swap_chain c.surface (c.resize S).sc_desc := by
  cases S
  exact ⟨rfl, rfl, rfl, rfl, rfl, rfl, rfl, rfl, rfl, rfl, rfl⟩

/-- C2: one call to `InterfacePass.render` on a successfully acquired frame
submits exactly one command buffer to the queue; that buffer records
exactly one render pass, whose color attachment loads (does not clear) the
prior contents, and whose command stream contains exactly one indexed draw
spanning `0..indices.length`; on the seeded quad the index count is 6. -/
theorem render_one_draw_one_submission (p : InterfacePass) (c : Context) (f : Frame) :
    ∃ buf : CommandBuffer,
      p.render c (some f) =
        Except.ok
          { c with queue := { c.queue with submissions := c.queue.submissions ++ [buf] } } ∧
      buf.passes.length = 1 ∧
      buf.passes.map RenderPassRecord.load_op = [LoadOp.Load] ∧
      buf.passes.map (fun pr => pr.cmds.filter RenderCmd.isDraw) =
        [[RenderCmd.draw_indexed ⟨0, p.indices.length⟩ 0 ⟨0, 1⟩]] ∧
      (Application.new c).interface_pass.indices.length = 6 := by
  exact ⟨_, rfl, rfl, rfl, rfl, rfl⟩

/-- C3: `Application.new` seeds exactly 4 vertices at positions (0,0),
(1,0), (1,1), (0,1), each with white color (1,1,1,1), zero UV and index
tag 0, and exactly the 6 indices (0,1,3,1,2,3), each of which is below 4. -/
theorem application_new_seeds_unit_quad (c : Context) :
    (Application.new c).interface_pass.vertices =
      [ { pos := (0, 0), color := (1, 1, 1, 1), uv := (0, 0), index := 0 }
      , { pos := (1, 0), color := (1, 1, 1, 1), uv := (0, 0), index := 0 }
      , { pos := (1, 1), color := (1, 1, 1, 1), uv := (0, 0), index := 0 }
      , { pos := (0, 1), color := (1, 1, 1, 1), uv := (0, 0), index := 0 } ] ∧
    (Application.new c).interface_pass.vertices.length = 4 ∧
    (Application.new c).interface_pass.indices = [0, 1, 3, 1, 2, 3] ∧
    (Application.new c).interface_pass.indices.length = 6 ∧
    (Application.new c).interface_pass.indices.all (fun i => decide (i < 4)) = true := by
  exact ⟨rfl, rfl, rfl, rfl, rfl⟩

/-- C4: the geometry invariant (index count a multiple of 3, every index
below the vertex count) holds after `Application.new`, the core operations
`update` and `input` do not modify the vertex or index lists, and every
successful event-loop iteration (covering update, render, input and
resize dispatch) preserves both lists and hence the invariant. -/
theorem geometry_invariant_holds_and_preserved (c : Context) (window_id : Nat) (s : LoopState)
    (cf : ControlFlow) (e : Event) (acq : Option Frame) (s' : LoopState) (cf' : ControlFlow)
    (h : loopStep window_id s cf e acq = Except.ok (s', cf')) :
    geomInvariant (Application.new c).interface_pass ∧
    (∀ p : InterfacePass, p.update.vertices = p.vertices ∧ p.update.indices = p.indices) ∧
    (∀ (a : Application) (we : WindowEvent), (a.input we).2 = a) ∧
    s'.app.interface_pass.vertices = s.app.interface_pass.vertices ∧
    s'.app.interface_pass.indices = s.app.interface_pass.indices ∧
    (geomInvariant s.app.interface_pass → geomInvariant s'.app.interface_pass) := by
  have happ := (loopStep_ok_spec window_id s cf e acq s' cf' h).1
  refine ⟨⟨?_, ?_⟩, fun p => ⟨rfl, rfl⟩, fun a we => rfl,
    by rw [happ], by rw [happ], by rw [happ]; exact id⟩
  · show (6 : Nat) % 3 = 0
    decide
  · show ∀ i ∈ ([0, 1, 3, 1, 2, 3] : List Nat), i < 4
    decide

/-- Witness for C4 at a concrete state and event. -/
theorem geometry_invariant_holds_and_preserved_witness :
    loopStep 0 sampleState ControlFlow.Poll Event.MainEventsCleared none =
      Except.ok (sampleState, ControlFlow.Poll) ∧
    (geomInvariant (Application.new sampleContext).interface_pass ∧
     (∀ p : InterfacePass, p.update.vertices = p.vertices ∧ p.update.indices = p.indices) ∧
     (∀ (a : Application) (we : WindowEvent), (a.input we).2 = a) ∧
     sampleState.app.interface_pass.vertices = sampleState.app.interface_pass.vertices ∧
     sampleState.app.interface_pass.indices = sampleState.app.interface_pass.indices ∧
     (geomInvariant sampleState.app.interface_pass →
       geomInvariant sampleState.app.interface_pass)) :=
  ⟨rfl, geometry_invariant_holds_and_preserved sampleContext 0 sampleState ControlFlow.Poll
    Event.MainEventsCleared none sampleState ControlFlow.Poll rfl⟩

/-- C5: the camera is constructed (in `InterfacePass.new`, hence in
`Application.new`) as the orthographic projection with bounds left=0,
right=1, bottom=0, top=1, near=10, far=100 — whose matrix is computed here
explicitly — and every successful event-loop iteration (in particular any
resize or render dispatch) leaves the stored camera unchanged. -/
theorem camera_fixed_orthographic_and_constant (c : Context) (window_id : Nat) (s : LoopState)
    (cf : ControlFlow) (e : Event) (acq : Option Frame) (s' : LoopState) (cf' : ControlFlow)
    (h : loopStep window_id s cf e acq = Except.ok (s', cf')) :
    (InterfacePass.new c).camera = Orthographic3.new 0 1 0 1 10 100 ∧
    (Application.new c).interface_pass.camera = Orthographic3.new 0 1 0 1 10 100 ∧
    (Orthographic3.new 0 1 0 1 10 100).as_matrix =
      { m00 := 2, m01 := 0, m02 := 0, m03 := -1
        m10 := 0, m11 := 2, m12 := 0, m13 := -1
        m20 := 0, m21 := 0, m22 := -(1 / 45), m23 := -(11 / 9)
        m30 := 0, m31 := 0, m32 := 0, m33 := 1 } ∧
    s'.app.interface_pass.camera = s.app.interface_pass.camera := by
  have happ := (loopStep_ok_spec window_id s cf e acq s' cf' h).1
  refine ⟨rfl, rfl, ?_, by rw [happ]⟩
  simp only [Orthographic3.new, Orthographic3.as_matrix, Matrix4.identity, Matrix4.mk.injEq]
  norm_num

/-- Witness for C5 at a concrete state and a concrete resize event. -/
theorem camera_fixed_orthographic_and_constant_witness :
    loopStep 0 sampleState ControlFlow.Poll
        (Event.WindowEvent 0 (WindowEvent.Resized ⟨640, 480⟩)) none =
      Except.ok
        ({ ctx := sampleContext.resize ⟨640, 480⟩, app := sampleState.app }, ControlFlow.Poll) ∧
    ((InterfacePass.new sampleContext).camera = Orthographic3.new 0 1 0 1 10 100 ∧
     (Application.new sampleContext).interface_pass.camera =
       Orthographic3.new 0 1 0 1 10 100 ∧
     (Orthographic3.new 0 1 0 1 10 100).as_matrix =
       { m00 := 2, m01 := 0, m02 := 0, m03 := -1
         m10 := 0, m11 := 2, m12 := 0, m13 := -1
         m20 := 0, m21 := 0, m22 := -(1 / 45), m23 := -(11 / 9)
         m30 := 0, m31 := 0, m32 := 0, m33 := 1 } ∧
     (LoopState.mk (sampleContext.resize ⟨640, 480⟩)
         sampleState.app).app.interface_pass.camera =
       sampleState.app.interface_pass.camera) :=
  ⟨rfl, camera_fixed_orthographic_and_constant sampleContext 0 sampleState ControlFlow.Poll
    (Event.WindowEvent 0 (WindowEvent.Resized ⟨640, 480⟩)) none
    { ctx := sampleContext.resize ⟨640, 480⟩, app := sampleState.app } ControlFlow.Poll rfl⟩

/-- C6: dispatching a close-request event, or a pressed-state Escape key
event, for the loop's window sets the control signal to `Exit`. -/
theorem close_or_escape_sets_exit (window_id : Nat) (s : LoopState) (cf : ControlFlow)
    (acq : Option Frame) (sc : Nat) :
    loopStep window_id s cf (Event.WindowEvent window_id WindowEvent.CloseRequested) acq =
      Except.ok (s, ControlFlow.Exit) ∧
    loopStep window_id s cf
        (Event.WindowEvent window_id (WindowEvent.KeyboardInput
          ⟨sc, ElementState.Pressed, some VirtualKeyCode.Escape⟩)) acq =
      Except.ok (s, ControlFlow.Exit) := by
  constructor <;> simp [loopStep, Application.input]

/-- C7: `InterfacePass.render` aborts (with the source's "Timeout getting
texture" panic message) exactly when swapchain image acquisition fails;
there is no other failure path, and on successful acquisition the call
completes through submission of a command buffer to the queue. -/
theorem render_fatal_iff_acquisition_fails (p : InterfacePass) (c : Context) :
    p.render c none = Except.error "Timeout getting texture" ∧
    (∀ f : Frame, ∃ buf : CommandBuffer,
      p.render c (some f) =
        Except.ok
          { c with queue := { c.queue with submissions := c.queue.submissions ++ [buf] } }) ∧
    (∀ acq : Option Frame, exceptIsOk (p.render c acq) = acq.isSome) := by
  refine ⟨rfl, fun f => ⟨_, rfl⟩, fun acq => by cases acq <;> rfl⟩

/-- C8: the vertex-buffer descriptor's stride is exactly 36 bytes (the sum
of the record's field sizes, independent of any vertex count), and its
four attributes sit at offsets 0, 8, 24, 32 — matching the running sums of
the `repr(C)` field layout of `InterfaceVertex` — with formats whose byte
sizes match the record's field sizes. -/
theorem vertex_stride_and_offsets_match_record :
    InterfaceVertex.desc.stride = 36 ∧
    InterfaceVertex.desc.stride = InterfaceVertex.fieldSizes.sum ∧
    InterfaceVertex.desc.attributes.length = 4 ∧
    InterfaceVertex.desc.attributes.map (fun a => a.offset) = [0, 8, 24, 32] ∧
    InterfaceVertex.desc.attributes.map (fun a => a.offset) =
      reprCOffsets InterfaceVertex.fieldSizes ∧
    InterfaceVertex.desc.attributes.map (fun a => a.format.byteSize) =
      InterfaceVertex.fieldSizes := by
  refine ⟨rfl, rfl, rfl, rfl, by decide, rfl⟩

/-- C9: `Application.input` returns `true` for every window event,
regardless of the event's content (and leaves the application unchanged). -/
theorem input_always_returns_true (a : Application) (e : WindowEvent) :
    a.input e = (true, a) :=
  rfl

/-- C10: a successful event-loop iteration sets the control signal to
`Exit` exactly on a close request or a pressed-state Escape key event for
the loop's window; every other event (a released-state Escape, any other
key, any other event) leaves the signal at `Poll` — the loop keeps
polling. -/
theorem exit_only_on_close_or_escape_press (window_id : Nat) (s : LoopState) (cf : ControlFlow)
    (e : Event) (acq : Option Frame) (s' : LoopState) (cf' : ControlFlow)
    (h : loopStep window_id s cf e acq = Except.ok (s', cf')) :
    (cf' = ControlFlow.Exit ∨ cf' = ControlFlow.Poll) ∧
    (cf' = ControlFlow.Exit ↔
      (e = Event.WindowEvent window_id WindowEvent.CloseRequested ∨
       ∃ sc, e = Event.WindowEvent window_id
         (WindowEvent.KeyboardInput ⟨sc, ElementState.Pressed, some VirtualKeyCode.Escape⟩))) :=
  (loopStep_ok_spec window_id s cf e acq s' cf' h).2

/-- Witness for C10 at a concrete state and a released-state Escape key
event (which keeps the signal at `Poll`). -/
theorem exit_only_on_close_or_escape_press_witness :
    loopStep 0 sampleState ControlFlow.Poll
        (Event.WindowEvent 0 (WindowEvent.KeyboardInput
          ⟨1, ElementState.Released, some VirtualKeyCode.Escape⟩)) none =
      Except.ok (sampleState, ControlFlow.Poll) ∧
    ((ControlFlow.Poll = ControlFlow.Exit ∨ ControlFlow.Poll = ControlFlow.Poll) ∧
     (ControlFlow.Poll = ControlFlow.Exit ↔
       (Event.WindowEvent 0 (WindowEvent.KeyboardInput
           ⟨1, ElementState.Released, some VirtualKeyCode.Escape⟩) =
         Event.WindowEvent 0 WindowEvent.CloseRequested ∨
        ∃ sc, Event.WindowEvent 0 (WindowEvent.KeyboardInput
            ⟨1, ElementState.Released, some VirtualKeyCode.Escape⟩) =
          Event.WindowEvent 0 (WindowEvent.KeyboardInput
            ⟨sc, ElementState.Pressed, some VirtualKeyCode.Escape⟩)))) :=
  ⟨rfl, exit_only_on_close_or_escape_press 0 sampleState ControlFlow.Poll
    (Event.WindowEvent 0 (WindowEvent.KeyboardInput
      ⟨1, ElementState.Released, some VirtualKeyCode.Escape⟩)) none
    sampleState ControlFlow.Poll rfl⟩
